import Mathlib

/-!
Verification of the weather-bot repository against its specification.

The modular sources are authoritative: `data_store.py`, `weather_api.py`,
`utils.py`, `config.py` and the handler modules under `handlers/`.
Each definition below embeds one piece of that code; the doc comment names
its source location.
-/

set_option maxHeartbeats 1000000

/-- Configuration constant `MAX_FAVORITES` (src/config.py line 20). -/
def MAX_FAVORITES : Nat := 10

/-- The dataclass `UserPreferences` (src/data_store.py lines 8-18) after
construction: `__post_init__` has already replaced a `None` favorites value
with the empty list, so the field is a plain list here. -/
structure UserPreferences where
  unit : String
  language : String
  favorites : List String
  default_city : Option String
deriving DecidableEq, Repr

/-- The dataclass constructor `UserPreferences(**prefs_data)`: the incoming
`favorites` value may be `None` (modelled as `none`), and `__post_init__`
(src/data_store.py lines 16-18) normalizes it to `[]`. -/
def UserPreferences.make (unit language : String) (favorites : Option (List String))
    (default_city : Option String) : UserPreferences :=
  { unit := unit, language := language, favorites := favorites.getD [],
    default_city := default_city }

/-- `UserPreferences()` with every field defaulted
(src/data_store.py lines 11-14): unit `metric`, language `en`,
favorites `None` normalized to `[]`, default_city `None`. -/
def UserPreferences.mkDefault : UserPreferences :=
  UserPreferences.make "metric" "en" none none

/-- One record of the JSON persistence file: the value `asdict(prefs)`
serialized under the key `str(user_id)`. In the file the `favorites` field can
be `null` (a legacy shape the loader must tolerate), hence the `Option`. -/
structure SavedPrefs where
  unit : String
  language : String
  favorites : Option (List String)
  default_city : Option String
deriving DecidableEq, Repr

/-- The persisted preference file: an ordered mapping from string-encoded user
ids to saved records. `none` at the call sites below means the file is absent. -/
def SavedFile := List (String × SavedPrefs)

/-- In-memory state of `UserDataStore` (src/data_store.py lines 20-24): the
dict `self.user_preferences`, modelled as an insertion-ordered association
list with unique keys, as a Python dict is. -/
structure UserDataStore where
  user_preferences : List (Int × UserPreferences)
deriving DecidableEq, Repr

/-- Python dict lookup `self.user_preferences[user_id]` /
`user_id in self.user_preferences`. -/
def dictFind (st : UserDataStore) (user_id : Int) : Option UserPreferences :=
  (st.user_preferences.find? (fun e => e.1 == user_id)).map (·.2)

/-- `UserDataStore.save_user_data` (src/data_store.py lines 41-49): serializes
the whole mapping, each key via `str(user_id)` and each value via
`asdict(prefs)` (whose `favorites` is always a real list after
`__post_init__`, hence `some`). The returned value is the file contents
written to disk. -/
def save_user_data (st : UserDataStore) : SavedFile :=
  st.user_preferences.map (fun e =>
    (toString e.1,
     { unit := e.2.unit, language := e.2.language,
       favorites := some e.2.favorites, default_city := e.2.default_city }))

/-- `UserDataStore.load_user_data` (src/data_store.py lines 26-39). The first
expression of the `try` body is `os.path.exists(self.filename)`, but the
module only has `json`, `logging`, `typing` and `dataclasses` in its
top-of-file imports — the name `os` is unbound, so evaluating it raises
`NameError` immediately; the blanket `except Exception` (line 38) catches and
logs it, and the method returns with `self.user_preferences` unchanged. The
file contents (second argument) are therefore never read. -/
def load_user_data (st : UserDataStore) (_file : Option SavedFile) : UserDataStore :=
  st

/-- Python `int()` on the decimal strings that `str()` produces for integers:
an optional leading minus sign followed by digits. -/
def intOfString (s : String) : Int :=
  match s.data with
  | '-' :: ds => - ((ds.foldl (fun n c => n * 10 + (c.toNat - 48)) 0 : Nat) : Int)
  | ds => ((ds.foldl (fun n c => n * 10 + (c.toNat - 48)) 0 : Nat) : Int)

/-- The `try` body of `load_user_data` as written (src/data_store.py lines
29-36), i.e. what the method would compute if the module imported `os`:
when the file exists, parse it, normalize a `null` favorites field to `[]`
(lines 34-35), and store each record under the key `int(user_id)`. -/
def load_user_data_body (st : UserDataStore) (file : Option SavedFile) : UserDataStore :=
  match file with
  | none => st
  | some entries =>
    { user_preferences :=
        st.user_preferences ++ entries.map (fun e =>
          (intOfString e.1,
           UserPreferences.make e.2.unit e.2.language
             (match e.2.favorites with
              | none => some []
              | some l => some l)
             e.2.default_city)) }

/-- `UserDataStore.get_user_prefs` (src/data_store.py lines 51-56): if the
user id is absent, insert a default record (Python dict insertion appends the
new key last) and call `save_user_data` immediately; return the record now
stored for the id. The `Bool` component records whether `save_user_data` was
called. -/
def get_user_prefs (st : UserDataStore) (user_id : Int) :
    UserPreferences × UserDataStore × Bool :=
  match dictFind st user_id with
  | some p => (p, st, false)
  | none =>
    let st' : UserDataStore :=
      { user_preferences := st.user_preferences ++ [(user_id, UserPreferences.mkDefault)] }
    (UserPreferences.mkDefault, st', true)

/-- Python `str.lower`, modelled character-wise (`Char.toLower`, ASCII case
folding — sufficient for the case-sensitivity properties below). -/
def pyLower (s : String) : String :=
  { data := s.data.map Char.toLower }

/-- The favorites mutation performed by the `/addfav` handler `add_favorite`
(src/handlers/command_handlers.py lines 156-159) once the city passed the
existence probe: `if city.lower() not in [fav.lower() for fav in
prefs.favorites]` append the city, else leave the list unchanged. No cap test
appears on this path. -/
def add_favorite (favorites : List String) (city : String) : List String :=
  if pyLower city ∉ favorites.map pyLower then favorites ++ [city]
  else favorites

/-- The favorites mutation of the `addfav_` branch of `handle_callback`
(src/handlers/callback_handlers.py lines 26-31): the same case-insensitive
duplicate test followed by append; again no cap test in the branch itself. -/
def addfav_callback (favorites : List String) (city : String) : List String :=
  if pyLower city ∉ favorites.map pyLower then favorites ++ [city]
  else favorites

/-- The favorites mutation of the `/removefav` handler `remove_favorite`
(src/handlers/command_handlers.py lines 173-182): scan a copy of the list,
remove the first entry whose lowercasing matches the argument, then stop. -/
def remove_favorite (favorites : List String) (city_to_remove : String) : List String :=
  match favorites.find? (fun fav => pyLower fav == pyLower city_to_remove) with
  | some fav => favorites.erase fav
  | none => favorites

/-- The favorites mutation of the `removefav_callback_` branch of
`handle_callback` (src/handlers/callback_handlers.py lines 89-97):
case-sensitive membership test, then `list.remove`. -/
def removefav_callback (favorites : List String) (city : String) : List String :=
  if city ∈ favorites then favorites.erase city else favorites

/-- The auto-suggest gate of `handle_city_message`
(src/handlers/command_handlers.py line 421): the add-to-favorites button is
offered only when the city is not already a favorite (case-insensitively) and
the list is strictly below `MAX_FAVORITES`. -/
def handle_city_message_suggests_add (favorites : List String) (city : String) : Prop :=
  pyLower city ∉ favorites.map pyLower ∧ favorites.length < MAX_FAVORITES

instance (favorites : List String) (city : String) :
    Decidable (handle_city_message_suggests_add favorites city) :=
  inferInstanceAs (Decidable (_ ∧ _))

/-- Outcome of the HTTP call `requests.get(WEATHER_API_URL, params,
timeout=REQUEST_TIMEOUT)` inside `get_current_weather`
(src/weather_api.py line 21): a response object was received (carrying its
status code, and a JSON body used when the status is a success), or the call
raised `requests.exceptions.Timeout`, or it raised some other
`RequestException` before any response object existed (connection refused,
DNS failure, and similar transport errors). -/
inductive HttpAttempt (α : Type) where
  | response (status : Nat) (body : α)
  | timeout
  | connectionError
deriving DecidableEq

/-- What a call to `WeatherAPI.get_current_weather` does as seen by its
caller: return the parsed body, return the dict `{"error":
"city_not_found"}`, return `None`, or let an `UnboundLocalError` escape. -/
inductive ApiOutcome (α : Type) where
  | success (body : α)
  | cityNotFound
  | transientNone
  | unboundLocalError
deriving DecidableEq

/-- `WeatherAPI.get_current_weather` (src/weather_api.py lines 12-31).
With a response in hand, `response.raise_for_status()` (line 22) raises
`requests.exceptions.HTTPError` exactly for status codes 400-599; that error
is a `RequestException`, so the handler at lines 27-31 runs with `response`
bound and returns the `city_not_found` dict for status 404 and `None`
otherwise. A `Timeout` returns `None` (lines 24-26). Any other
`RequestException` raised by `requests.get` itself reaches the same handler
with the local variable `response` never assigned, so the test
`response.status_code == 404` at line 29 raises `UnboundLocalError`, which
nothing catches: it escapes to the caller. -/
def get_current_weather {α : Type} (r : HttpAttempt α) : ApiOutcome α :=
  match r with
  | .response status body =>
    if 400 ≤ status ∧ status < 600 then
      if status = 404 then .cityNotFound else .transientNone
    else .success body
  | .timeout => .transientNone
  | .connectionError => .unboundLocalError

/-- `get_weather_emoji` (src/utils.py lines 5-20): a chain of upper-bound
tests on the integer condition code. -/
def get_weather_emoji (weather_id : Int) : String :=
  if weather_id < 300 then "⛈️"
  else if weather_id < 400 then "🌦️"
  else if weather_id < 600 then "🌧️"
  else if weather_id < 700 then "❄️"
  else if weather_id < 800 then "🌫️"
  else if weather_id = 800 then "☀️"
  else "☁️"

/-- Modelled from the claim's words, for comparison with `get_weather_emoji`:
first-match lookup over the ordered half-open ranges [200,300) thunderstorm,
[300,400) drizzle, [500,600) rain, [600,700) snow, [700,800) atmosphere,
the singleton 800 clear, and otherwise clouds. -/
def claimed_emoji_table (weather_id : Int) : String :=
  if 200 ≤ weather_id ∧ weather_id < 300 then "⛈️"
  else if 300 ≤ weather_id ∧ weather_id < 400 then "🌦️"
  else if 500 ≤ weather_id ∧ weather_id < 600 then "🌧️"
  else if 600 ≤ weather_id ∧ weather_id < 700 then "❄️"
  else if 700 ≤ weather_id ∧ weather_id < 800 then "🌫️"
  else if weather_id = 800 then "☀️"
  else "☁️"

/-- A JSON field of a provider payload as a Python `dict` entry: the key can
be absent, present with value `None` (JSON `null`), or present with a
numeric value (modelled as an exact rational). -/
inductive JsonField where
  | absent
  | null
  | val (q : ℚ)
deriving DecidableEq

/-- The `wind` sub-object of the current-weather payload, as read by
src/utils.py lines 32-33. -/
structure WindData where
  speed : JsonField
  deg : JsonField
deriving DecidableEq

/-- The slice of the provider's current-weather JSON payload that the
optional-field extraction in `format_weather_message` (src/utils.py lines
32-34) reads: the `wind` object (absent or present) and the `visibility`
field. -/
structure WeatherPayload where
  wind : Option WindData
  visibility : JsonField
deriving DecidableEq

/-- Line 32 of src/utils.py: `data.get('wind', dict()).get('speed', 0)`.
An absent `wind` object or an absent `speed` key defaults to `0`; a `null`
value is returned as Python `None` (modelled `none`). -/
def extract_wind_speed (p : WeatherPayload) : Option ℚ :=
  match p.wind with
  | none => some 0
  | some w =>
    match w.speed with
    | .absent => some 0
    | .null => none
    | .val q => some q

/-- Line 33 of src/utils.py: `data.get('wind', dict()).get('deg', 0)`.
`dict.get` with a default returns the default only when the key is absent;
a key present with value `None` yields Python `None` (modelled `none`). -/
def extract_wind_deg (p : WeatherPayload) : Option ℚ :=
  match p.wind with
  | none => some 0
  | some w =>
    match w.deg with
    | .absent => some 0
    | .null => none
    | .val q => some q

/-- Line 34 of src/utils.py:
`data.get('visibility', 0) / 1000 if data.get('visibility') else None`.
The conditional tests Python truthiness of the retrieved value, so an absent
key, a `null` value and the number `0` all take the `else None` branch; a
nonzero number v becomes v / 1000 (meters to kilometers). -/
def extract_visibility (p : WeatherPayload) : Option ℚ :=
  match p.visibility with
  | .val v => if v ≠ 0 then some (v / 1000) else none
  | _ => none

/-- Python's built-in `round` on an exact rational: round half to even. -/
def pythonRound (q : ℚ) : Int :=
  if q - ⌊q⌋ < 1 / 2 then ⌊q⌋
  else if 1 / 2 < q - ⌊q⌋ then ⌊q⌋ + 1
  else if 2 ∣ ⌊q⌋ then ⌊q⌋ else ⌊q⌋ + 1

/-- The 16-sector compass table of src/utils.py lines 54-55. -/
def wind_directions : List String :=
  ["N", "NNE", "NE", "ENE", "E", "ESE", "SE", "SSE",
   "S", "SSW", "SW", "WSW", "W", "WNW", "NW", "NNW"]

/-- Line 56 of src/utils.py:
`wind_directions[round(wind_deg / 22.5) % 16] if wind_deg is not None else
"N/A"`. Python `%` with a positive modulus is `Int.emod` here; the index is
always in range for the 16-entry table, so the `getD` default is
unreachable. -/
def wind_dir (p : WeatherPayload) : String :=
  match extract_wind_deg p with
  | none => "N/A"
  | some deg => wind_directions.getD ((pythonRound (deg / 22.5)).emod 16).toNat ""

/-- A payload whose `wind` object carries the given `deg` field; used to
state concrete wind-direction facts. -/
def degPayload (f : JsonField) : WeatherPayload :=
  { wind := some { speed := .absent, deg := f }, visibility := .absent }

/-- One forecast sample's `weather[0]` object as read by
`format_forecast_message` (src/utils.py line 103): the condition group
(`main`), the integer condition code (`id`) and the text description. -/
structure Cond where
  main : String
  id : Int
  description : String
deriving DecidableEq

/-- Python `max(iterable, key=k)` on a list: the first element attaining the
maximal key in iteration order — a later element replaces the current best
only when its key is strictly greater. `none` models the `ValueError` on an
empty iterable. -/
def pymax (key : String → Nat) : List String → Option String
  | [] => none
  | x :: xs => some (xs.foldl (fun best c => if key c > key best then c else best) x)

/-- The distinct elements of a list in first-occurrence order. Used as the
canonical enumeration of the mathematical set underlying a Python `set`. -/
def firstOccurrences (l : List String) : List String :=
  l.foldl (fun acc x => if x ∈ acc then acc else acc ++ [x]) []

/-- Lines 104-105 of src/utils.py: `max(set(c['main'] for c in conditions),
key=[c['main'] for c in conditions].count)`. CPython iterates a `set` of
strings in a hash-dependent order (randomized per process), not in insertion
order, so the embedding takes the iteration order as an explicit argument
`order`, constrained in the theorems below to enumerate exactly the distinct
condition groups. -/
def main_condition_group (order : List String) (conditions : List Cond) :
    Option String :=
  pymax (fun g => (conditions.map Cond.main).count g) order

/-- Lines 110-111 of src/utils.py: the representative condition code is the
first `id` among the samples labelled with the dominant group, falling back
to the first sample's `id` when no sample matches. -/
def representative_id (grp : String) (conditions : List Cond) : Option Int :=
  match (conditions.filter (fun c => c.main == grp)).map Cond.id with
  | [] => conditions.head?.map Cond.id
  | i :: _ => some i

/-- Modelled from the claim's words, for comparison with
`main_condition_group`: the dominant condition is the group whose count is
maximal, ties resolved to the group encountered first when scanning the
samples in provider order. -/
def claimed_dominant_group (conditions : List Cond) : Option String :=
  pymax (fun g => (conditions.map Cond.main).count g)
    (firstOccurrences (conditions.map Cond.main))

lemma pymax_foldl_spec (key : String → Nat) (xs : List String) (b : String) :
    ((xs.foldl (fun best c => if key c > key best then c else best) b) = b ∨
      (xs.foldl (fun best c => if key c > key best then c else best) b) ∈ xs) ∧
    key b ≤ key (xs.foldl (fun best c => if key c > key best then c else best) b) ∧
    ∀ c ∈ xs, key c ≤ key (xs.foldl (fun best c => if key c > key best then c else best) b) := by
  induction xs generalizing b with
  | nil => simp
  | cons x xs ih =>
    simp only [List.foldl_cons]
    by_cases hx : key x > key b
    · rw [if_pos hx]
      obtain ⟨hmem, hb, hall⟩ := ih x
      refine ⟨?_, ?_, ?_⟩
      · rcases hmem with h | h
        · rw [h]
          exact Or.inr (List.mem_cons_self x xs)
        · exact Or.inr (List.mem_cons_of_mem x h)
      · exact le_trans (le_of_lt hx) hb
      · intro c hc
        rcases List.mem_cons.1 hc with rfl | hc
        · exact hb
        · exact hall c hc
    · rw [if_neg hx]
      obtain ⟨hmem, hb, hall⟩ := ih b
      refine ⟨?_, hb, ?_⟩
      · rcases hmem with h | h
        · exact Or.inl h
        · exact Or.inr (List.mem_cons_of_mem x h)
      · intro c hc
        rcases List.mem_cons.1 hc with rfl | hc
        · exact le_trans (Nat.le_of_not_lt hx) hb
        · exact hall c hc

lemma mem_foldl_firstOcc (l : List String) :
    ∀ (acc : List String) (x : String),
      (x ∈ l.foldl (fun acc y => if y ∈ acc then acc else acc ++ [y]) acc ↔
        x ∈ acc ∨ x ∈ l) := by
  induction l with
  | nil => simp
  | cons y ys ih =>
    intro acc x
    simp only [List.foldl_cons]
    rw [ih]
    by_cases hy : y ∈ acc
    · simp only [hy, if_pos, List.mem_cons]
      constructor
      · rintro (h | h)
        · exact Or.inl h
        · exact Or.inr (Or.inr h)
      · rintro (h | rfl | h)
        · exact Or.inl h
        · exact Or.inl hy
        · exact Or.inr h
    · simp only [hy, if_neg, if_false, List.mem_append, List.mem_singleton,
        List.mem_cons]
      tauto

lemma mem_firstOccurrences (l : List String) (x : String) :
    x ∈ firstOccurrences l ↔ x ∈ l := by
  simpa using mem_foldl_firstOcc l [] x

lemma firstOccurrences_ne_nil {l : List String} (h : l ≠ []) :
    firstOccurrences l ≠ [] := by
  rcases l with _ | ⟨x, xs⟩
  · exact absurd rfl h
  · intro hfo
    have hx : x ∈ firstOccurrences (x :: xs) :=
      (mem_firstOccurrences _ x).2 (List.mem_cons_self x xs)
    rw [hfo] at hx
    exact List.not_mem_nil x hx

/-- C2: error normalization of `get_current_weather`, evaluated on every
failure mode. A 404 response yields the city-not-found outcome and any other
HTTP error status or a timeout yields `None`, as the claim states — but a
transport error with no response received does not yield `None`: the handler
evaluates the unbound local `response` and an `UnboundLocalError` escapes to
the caller, so the operation does raise for that failure mode. -/
theorem C2_error_normalization :
    get_current_weather (α := Unit) (.response 404 ()) = .cityNotFound ∧
    get_current_weather (α := Unit) (.response 500 ()) = .transientNone ∧
    get_current_weather (α := Unit) (.response 503 ()) = .transientNone ∧
    get_current_weather (α := Unit) .timeout = .transientNone ∧
    get_current_weather (α := Unit) (.response 200 ()) = .success () ∧
    get_current_weather (α := Unit) .connectionError = .unboundLocalError ∧
    get_current_weather (α := Unit) .connectionError ≠ .transientNone := by
  decide

/-- C5 (counterexample): the code deviates from the claimed range table.
Code 450 lies in none of the claimed ranges, so the claimed table sends it to
clouds, but the code returns the rain emoji; likewise code 100 is below the
claimed thunderstorm range [200,300) yet the code returns the thunderstorm
emoji. -/
theorem C5_counterexample :
    get_weather_emoji 450 ≠ claimed_emoji_table 450 ∧
    get_weather_emoji 450 = "🌧️" ∧ claimed_emoji_table 450 = "☁️" ∧
    get_weather_emoji 100 ≠ claimed_emoji_table 100 ∧
    get_weather_emoji 100 = "⛈️" ∧ claimed_emoji_table 100 = "☁️" := by
  decide

/-- C5 (amended): `get_weather_emoji` is total on integer codes and is
first-match on upper bounds only: every code below 300 is thunderstorm,
[300,400) drizzle, [400,600) rain, [600,700) snow, [700,800) atmosphere,
exactly 800 clear, and above 800 clouds. It agrees with the claimed table on
[200,400) and on [500,∞); the claim's four examples hold. -/
theorem C5_amended (weather_id : Int) :
    (weather_id < 300 → get_weather_emoji weather_id = "⛈️") ∧
    (300 ≤ weather_id → weather_id < 400 → get_weather_emoji weather_id = "🌦️") ∧
    (400 ≤ weather_id → weather_id < 600 → get_weather_emoji weather_id = "🌧️") ∧
    (600 ≤ weather_id → weather_id < 700 → get_weather_emoji weather_id = "❄️") ∧
    (700 ≤ weather_id → weather_id < 800 → get_weather_emoji weather_id = "🌫️") ∧
    (weather_id = 800 → get_weather_emoji weather_id = "☀️") ∧
    (800 < weather_id → get_weather_emoji weather_id = "☁️") ∧
    (200 ≤ weather_id → weather_id < 400 ∨ 500 ≤ weather_id →
      get_weather_emoji weather_id = claimed_emoji_table weather_id) ∧
    get_weather_emoji 250 = "⛈️" ∧ get_weather_emoji 800 = "☀️" ∧
    get_weather_emoji 801 = "☁️" ∧ get_weather_emoji 600 = "❄️" := by
  refine ⟨?_, ?_, ?_, ?_, ?_, ?_, ?_, ?_, by decide, by decide, by decide, by decide⟩
  · intro h
    simp only [get_weather_emoji, if_pos h]
  · intro h1 h2
    simp only [get_weather_emoji]
    rw [if_neg (by omega), if_pos h2]
  · intro h1 h2
    simp only [get_weather_emoji]
    rw [if_neg (by omega), if_neg (by omega), if_pos h2]
  · intro h1 h2
    simp only [get_weather_emoji]
    rw [if_neg (by omega), if_neg (by omega), if_neg (by omega), if_pos h2]
  · intro h1 h2
    simp only [get_weather_emoji]
    rw [if_neg (by omega), if_neg (by omega), if_neg (by omega), if_neg (by omega),
      if_pos h2]
  · intro h
    simp only [get_weather_emoji]
    rw [if_neg (by omega), if_neg (by omega), if_neg (by omega), if_neg (by omega),
      if_neg (by omega), if_pos h]
  · intro h
    simp only [get_weather_emoji]
    rw [if_neg (by omega), if_neg (by omega), if_neg (by omega), if_neg (by omega),
      if_neg (by omega), if_neg (by omega)]
  · intro h1 h2
    simp only [get_weather_emoji, claimed_emoji_table]
    split_ifs <;> first | rfl | omega

/-- Witness for C5_amended: the amended boundaries at codes 250 and 450. -/
theorem C5_amended_witness :
    ((250 : Int) < 300 ∧ get_weather_emoji 250 = "⛈️") ∧
    (400 ≤ (450 : Int) ∧ (450 : Int) < 600 ∧ get_weather_emoji 450 = "🌧️") :=
  ⟨⟨by decide, (C5_amended 250).1 (by decide)⟩,
   ⟨by decide, by decide, (C5_amended 450).2.2.1 (by decide) (by decide)⟩⟩

/-- C6 (counterexample): a payload whose provider-supplied visibility value
is the number 0 produces no visibility display, because the code tests
Python truthiness of the value, not its presence. -/
theorem C6_counterexample :
    ({ wind := none, visibility := JsonField.val 0 } : WeatherPayload).visibility =
      JsonField.val 0 ∧
    extract_visibility { wind := none, visibility := JsonField.val 0 } = none :=
  ⟨rfl, by norm_num [extract_visibility]⟩

/-- C6 (amended): visibility is displayed if and only if the provider
supplied a nonzero numeric value; when displayed, the shown quantity is the
supplied meter value divided by 1000. An absent field, a null value and a
supplied value of 0 all suppress the line. -/
theorem C6_amended (p : WeatherPayload) :
    (∀ v : ℚ, p.visibility = .val v → v ≠ 0 →
      extract_visibility p = some (v / 1000)) ∧
    (p.visibility = .absent → extract_visibility p = none) ∧
    (p.visibility = .null → extract_visibility p = none) ∧
    (p.visibility = .val 0 → extract_visibility p = none) := by
  refine ⟨?_, ?_, ?_, ?_⟩
  · intro v hv hv0
    simp [extract_visibility, hv, hv0]
  · intro hv
    simp [extract_visibility, hv]
  · intro hv
    simp [extract_visibility, hv]
  · intro hv
    simp [extract_visibility, hv]

/-- Witness for C6_amended: a supplied visibility of 5000 meters is displayed
as 5 km. -/
theorem C6_amended_witness :
    ({ wind := none, visibility := JsonField.val 5000 } : WeatherPayload).visibility =
      JsonField.val 5000 ∧
    (5000 : ℚ) ≠ 0 ∧
    extract_visibility { wind := none, visibility := JsonField.val 5000 } =
      some ((5000 : ℚ) / 1000) :=
  ⟨rfl, by norm_num, (C6_amended _).1 5000 rfl (by norm_num)⟩

lemma wind_directions_getD_ne_NA (n : Nat) : wind_directions.getD n "" ≠ "N/A" := by
  rcases n with _ | _ | _ | _ | _ | _ | _ | _ | _ | _ | _ | _ | _ | _ | _ | _ | n
  · decide
  · decide
  · decide
  · decide
  · decide
  · decide
  · decide
  · decide
  · decide
  · decide
  · decide
  · decide
  · decide
  · decide
  · decide
  · decide
  · rw [List.getD_eq_default]
    · decide
    · simp [wind_directions]

/-- C9: the wind-direction display. Whenever the extracted degree value is a
number, the shown sector is the entry of the 16-name table (starting at "N")
at index `round(degrees / 22.5) mod 16`; that index is always in range for
the table. The claim's examples: 0° shows "N", 90° shows "E", and 350° wraps
through the modulo back to "N". -/
theorem C9_wind_bucketing (p : WeatherPayload) (deg : ℚ)
    (h : extract_wind_deg p = some deg) :
    (wind_dir p =
        wind_directions.getD ((pythonRound (deg / 22.5)).emod 16).toNat "" ∧
      ((pythonRound (deg / 22.5)).emod 16).toNat < wind_directions.length ∧
      wind_directions.head? = some "N") ∧
    wind_dir (degPayload (.val 0)) = "N" ∧
    wind_dir (degPayload (.val 90)) = "E" ∧
    wind_dir (degPayload (.val 350)) = "N" := by
  refine ⟨⟨?_, ?_, rfl⟩, ?_, ?_, ?_⟩
  · simp [wind_dir, h]
  · have h1 : 0 ≤ (pythonRound (deg / 22.5)).emod 16 :=
      Int.emod_nonneg _ (by norm_num)
    have h2 : (pythonRound (deg / 22.5)).emod 16 < 16 :=
      Int.emod_lt_of_pos _ (by norm_num)
    simp only [wind_directions, List.length]
    omega
  · norm_num [wind_dir, extract_wind_deg, degPayload, pythonRound, wind_directions]
  · norm_num [wind_dir, extract_wind_deg, degPayload, pythonRound, wind_directions]
    rfl
  · norm_num [wind_dir, extract_wind_deg, degPayload, pythonRound, wind_directions]

/-- Witness for C9_wind_bucketing at a payload with no wind object: the
extracted degree value defaults to 0. -/
theorem C9_wind_bucketing_witness :
    extract_wind_deg { wind := none, visibility := JsonField.absent } = some 0 ∧
    ((wind_dir { wind := none, visibility := JsonField.absent } =
        wind_directions.getD ((pythonRound ((0 : ℚ) / 22.5)).emod 16).toNat "" ∧
      ((pythonRound ((0 : ℚ) / 22.5)).emod 16).toNat < wind_directions.length ∧
      wind_directions.head? = some "N") ∧
    wind_dir (degPayload (.val 0)) = "N" ∧
    wind_dir (degPayload (.val 90)) = "E" ∧
    wind_dir (degPayload (.val 350)) = "N") :=
  ⟨rfl, C9_wind_bucketing { wind := none, visibility := JsonField.absent } 0 rfl⟩

/-- C10 (counterexample): the "N/A" branch is reachable. A payload carrying
`wind.deg` explicitly set to null makes `dict.get` return Python `None`
despite the supplied default, so the `is not None` test fails and "N/A" is
displayed. -/
theorem C10_counterexample :
    wind_dir (degPayload JsonField.null) = "N/A" := rfl

/-- C10 (amended): when the payload omits the wind object or the `deg` key,
the degree value defaults to 0 and the shown direction is "N"; the "N/A"
branch is reachable, and exactly on those payloads where the wind object is
present with `deg` explicitly null — `dict.get(key, default)` returns the
stored `None` in that case, not the default. -/
theorem C10_amended (p : WeatherPayload) :
    (p.wind = none → wind_dir p = "N") ∧
    (∀ w, p.wind = some w → w.deg = JsonField.absent → wind_dir p = "N") ∧
    (wind_dir p = "N/A" ↔ ∃ w, p.wind = some w ∧ w.deg = JsonField.null) := by
  refine ⟨?_, ?_, ?_, ?_⟩
  · intro hw
    simp only [wind_dir, extract_wind_deg, hw]
    norm_num [pythonRound, wind_directions]
  · intro w hw hdeg
    simp only [wind_dir, extract_wind_deg, hw, hdeg]
    norm_num [pythonRound, wind_directions]
  · intro hna
    rcases hp : p.wind with _ | w
    · rw [show wind_dir p = "N" from by
        simp only [wind_dir, extract_wind_deg, hp]
        norm_num [pythonRound, wind_directions]] at hna
      exact absurd hna (by decide)
    · rcases hdeg : w.deg with _ | _ | q
      · rw [show wind_dir p = "N" from by
          simp only [wind_dir, extract_wind_deg, hp, hdeg]
          norm_num [pythonRound, wind_directions]] at hna
        exact absurd hna (by decide)
      · exact ⟨w, rfl, hdeg⟩
      · rw [show wind_dir p =
            wind_directions.getD ((pythonRound (q / 22.5)).emod 16).toNat "" from by
          simp [wind_dir, extract_wind_deg, hp, hdeg]] at hna
        exact absurd hna (wind_directions_getD_ne_NA _)
  · rintro ⟨w, hw, hdeg⟩
    simp [wind_dir, extract_wind_deg, hw, hdeg]

/-- Witness for C10_amended: a payload with no wind object shows "N". -/
theorem C10_amended_witness :
    ({ wind := none, visibility := JsonField.absent } : WeatherPayload).wind = none ∧
    wind_dir { wind := none, visibility := JsonField.absent } = "N" :=
  ⟨rfl, (C10_amended _).1 rfl⟩

/-- C3 (counterexample): with the favorites list already at the cap of 10,
the explicit add-favorite command appends an 11th city — no cap check exists
on that path. -/
theorem C3_counterexample :
    (["a", "b", "c", "d", "e", "f", "g", "h", "i", "j"] : List String).length =
      MAX_FAVORITES ∧
    add_favorite ["a", "b", "c", "d", "e", "f", "g", "h", "i", "j"] "k" =
      ["a", "b", "c", "d", "e", "f", "g", "h", "i", "j", "k"] ∧
    MAX_FAVORITES <
      (add_favorite ["a", "b", "c", "d", "e", "f", "g", "h", "i", "j"] "k").length := by
  decide

/-- C3 (amended): the cap is consulted only by the auto-suggest gate of
`handle_city_message`: the add-to-favorites suggestion is offered only while
the list is strictly below the cap, and an add accepted from that suggestion
leaves the list at or under the cap. The explicit add-favorite command
performs no cap check at all — a new city is appended regardless of the
current length — so favorites can exceed the cap through it. -/
theorem C3_amended (favorites : List String) (city : String)
    (h : handle_city_message_suggests_add favorites city) :
    (favorites.length < MAX_FAVORITES ∧
      (addfav_callback favorites city).length ≤ MAX_FAVORITES) ∧
    ∀ favs : List String, ∀ c : String,
      pyLower c ∉ favs.map pyLower →
      (add_favorite favs c).length = favs.length + 1 := by
  obtain ⟨hnotmem, hlt⟩ := h
  constructor
  · refine ⟨hlt, ?_⟩
    rw [addfav_callback, if_pos hnotmem, List.length_append]
    simpa using hlt
  · intro favs c hc
    rw [add_favorite, if_pos hc, List.length_append]
    rfl

/-- Witness for C3_amended: the gate holds on an empty list with city
"Paris". -/
theorem C3_amended_witness :
    handle_city_message_suggests_add [] "Paris" ∧
    (([] : List String).length < MAX_FAVORITES ∧
      (addfav_callback [] "Paris").length ≤ MAX_FAVORITES) ∧
    (add_favorite [] "Paris").length = ([] : List String).length + 1 :=
  ⟨by decide, (C3_amended [] "Paris" (by decide)).1,
   (C3_amended [] "Paris" (by decide)).2 [] "Paris" (by decide)⟩

lemma ci_append_nodup (favorites : List String) (city : String)
    (h : (favorites.map pyLower).Nodup)
    (hc : pyLower city ∉ favorites.map pyLower) :
    ((favorites ++ [city]).map pyLower).Nodup := by
  rw [List.map_append, List.nodup_append]
  exact ⟨h, List.nodup_singleton _, by simpa using hc⟩

lemma erase_map_nodup (favorites : List String) (fav : String)
    (h : (favorites.map pyLower).Nodup) :
    ((favorites.erase fav).map pyLower).Nodup :=
  h.sublist ((List.erase_sublist fav favorites).map pyLower)

/-- C7: case-insensitive uniqueness of the favorites list is preserved by
every mutation path — add via the command, add via the callback, remove via
the command, remove via the callback — and adding a city that is already
present in a different letter case is a no-op on both add paths. -/
theorem C7_case_insensitive_unique (favorites : List String) (city : String)
    (h : (favorites.map pyLower).Nodup) :
    ((add_favorite favorites city).map pyLower).Nodup ∧
    ((addfav_callback favorites city).map pyLower).Nodup ∧
    ((remove_favorite favorites city).map pyLower).Nodup ∧
    ((removefav_callback favorites city).map pyLower).Nodup ∧
    (pyLower city ∈ favorites.map pyLower →
      add_favorite favorites city = favorites ∧
      addfav_callback favorites city = favorites) := by
  refine ⟨?_, ?_, ?_, ?_, ?_⟩
  · by_cases hc : pyLower city ∈ favorites.map pyLower
    · rw [add_favorite, if_neg (by simpa using hc)]
      exact h
    · rw [add_favorite, if_pos hc]
      exact ci_append_nodup favorites city h hc
  · by_cases hc : pyLower city ∈ favorites.map pyLower
    · rw [addfav_callback, if_neg (by simpa using hc)]
      exact h
    · rw [addfav_callback, if_pos hc]
      exact ci_append_nodup favorites city h hc
  · rcases hf : favorites.find? (fun fav => pyLower fav == pyLower city) with _ | fav
    · simp only [remove_favorite, hf]
      exact h
    · simp only [remove_favorite, hf]
      exact erase_map_nodup favorites fav h
  · rw [removefav_callback]
    by_cases hc : city ∈ favorites
    · rw [if_pos hc]
      exact erase_map_nodup favorites city h
    · rw [if_neg hc]
      exact h
  · intro hc
    constructor
    · rw [add_favorite, if_neg (by simpa using hc)]
    · rw [addfav_callback, if_neg (by simpa using hc)]

/-- Witness for C7_case_insensitive_unique: a singleton list, adding the same
city in upper case is a no-op. -/
theorem C7_case_insensitive_unique_witness :
    ((["Paris"].map pyLower).Nodup ∧
      pyLower "PARIS" ∈ ["Paris"].map pyLower) ∧
    add_favorite ["Paris"] "PARIS" = ["Paris"] ∧
    addfav_callback ["Paris"] "PARIS" = ["Paris"] ∧
    ((remove_favorite ["Paris"] "PARIS").map pyLower).Nodup :=
  ⟨⟨by decide, by decide⟩,
   ((C7_case_insensitive_unique ["Paris"] "PARIS" (by decide)).2.2.2.2 (by decide)).1,
   ((C7_case_insensitive_unique ["Paris"] "PARIS" (by decide)).2.2.2.2 (by decide)).2,
   (C7_case_insensitive_unique ["Paris"] "PARIS" (by decide)).2.2.1⟩

lemma find?_append_of_none {α : Type} (l₁ l₂ : List α) (p : α → Bool)
    (h : l₁.find? p = none) : (l₁ ++ l₂).find? p = l₂.find? p := by
  induction l₁ with
  | nil => rfl
  | cons x xs ih =>
    rw [List.find?_cons] at h
    simp only [List.cons_append, List.find?_cons]
    rcases hp : p x with _ | _
    · simp only [hp] at h ⊢
      exact ih h
    · simp only [hp] at h
      exact absurd h (by simp)

/-- C8: for a user id absent from the store, `get_user_prefs` returns the
default record — unit "metric", language "en", empty favorites, no default
city — persists immediately (`save_user_data` is called), and a second call
for the same id returns the very same record from the unchanged store without
saving again; the store then holds exactly one record for that id. -/
theorem C8_get_or_create (st : UserDataStore) (u : Int)
    (h : dictFind st u = none) :
    (get_user_prefs st u).1 = UserPreferences.mkDefault ∧
    (get_user_prefs st u).1.unit = "metric" ∧
    (get_user_prefs st u).1.language = "en" ∧
    (get_user_prefs st u).1.favorites = [] ∧
    (get_user_prefs st u).1.default_city = none ∧
    (get_user_prefs st u).2.2 = true ∧
    (get_user_prefs ((get_user_prefs st u).2.1) u).1 = (get_user_prefs st u).1 ∧
    (get_user_prefs ((get_user_prefs st u).2.1) u).2.1 = (get_user_prefs st u).2.1 ∧
    (get_user_prefs ((get_user_prefs st u).2.1) u).2.2 = false ∧
    ((get_user_prefs st u).2.1.user_preferences.filter (fun e => e.1 == u)).length = 1 := by
  have hfind : st.user_preferences.find? (fun e => e.1 == u) = none :=
    Option.map_eq_none'.1 h
  have hfilter : st.user_preferences.filter (fun e => e.1 == u) = [] :=
    List.filter_eq_nil_iff.2 (fun x hx => by
      simpa using List.find?_eq_none.1 hfind x hx)
  have h1 : get_user_prefs st u =
      (UserPreferences.mkDefault,
       { user_preferences :=
          st.user_preferences ++ [(u, UserPreferences.mkDefault)] }, true) := by
    rw [get_user_prefs, h]
  have hfind2 : dictFind
      ({ user_preferences :=
          st.user_preferences ++ [(u, UserPreferences.mkDefault)] } : UserDataStore) u =
      some UserPreferences.mkDefault := by
    rw [dictFind]
    rw [find?_append_of_none _ _ _ hfind]
    simp [List.find?_cons]
  have h2 : get_user_prefs
      ({ user_preferences :=
          st.user_preferences ++ [(u, UserPreferences.mkDefault)] } : UserDataStore) u =
      (UserPreferences.mkDefault,
       { user_preferences :=
          st.user_preferences ++ [(u, UserPreferences.mkDefault)] }, false) := by
    rw [get_user_prefs, hfind2]
  rw [h1]
  refine ⟨rfl, rfl, rfl, rfl, rfl, rfl, ?_, ?_, ?_, ?_⟩
  · rw [h2]
  · rw [h2]
  · rw [h2]
  · rw [List.filter_append, hfilter]
    simp

/-- Witness for C8_get_or_create: the empty store and user id 42. -/
theorem C8_get_or_create_witness :
    dictFind { user_preferences := [] } 42 = none ∧
    (get_user_prefs { user_preferences := [] } 42).1 = UserPreferences.mkDefault ∧
    (get_user_prefs { user_preferences := [] } 42).2.2 = true ∧
    (get_user_prefs ((get_user_prefs { user_preferences := [] } 42).2.1) 42).2.2 = false ∧
    ((get_user_prefs { user_preferences := [] } 42).2.1.user_preferences.filter
      (fun e => e.1 == 42)).length = 1 := by
  have h := C8_get_or_create { user_preferences := [] } 42 rfl
  exact ⟨rfl, h.1, h.2.2.2.2.2.1, h.2.2.2.2.2.2.2.2.1, h.2.2.2.2.2.2.2.2.2⟩

/-- A concrete nonempty store used to exercise the save/load round trip. -/
def sampleStore : UserDataStore :=
  { user_preferences :=
      [(1, UserPreferences.make "imperial" "ar" (some ["Baghdad"]) (some "Erbil"))] }

/-- A persisted file holding one record whose `favorites` field is null —
the legacy shape the loader is supposed to normalize to the empty list. -/
def nullFavoritesFile : SavedFile :=
  [("2", { unit := "metric", language := "en", favorites := none, default_city := none })]

/-- C1: round-trip persistence fails in the code as written. Saving a
nonempty mapping and then loading the produced file into a fresh store with
an empty mapping leaves that mapping empty: `load_user_data` hits the unbound
name `os` and its blanket exception handler before reading anything, for any
file contents. The `try` body as written (`load_user_data_body`) would have
reproduced the mapping — ids, unit, language, favorites, default city — and
would also have normalized a null favorites field to the empty list; the
loss is caused solely by the missing `os` binding. -/
theorem C1_round_trip_lost :
    (load_user_data { user_preferences := [] }
      (some (save_user_data sampleStore))).user_preferences = [] ∧
    sampleStore.user_preferences ≠ [] ∧
    load_user_data_body { user_preferences := [] }
      (some (save_user_data sampleStore)) = sampleStore ∧
    (load_user_data { user_preferences := [] }
      (some nullFavoritesFile)).user_preferences = [] ∧
    (load_user_data_body { user_preferences := [] }
      (some nullFavoritesFile)).user_preferences =
      [(2, UserPreferences.make "metric" "en" (some []) none)] := by
  refine ⟨rfl, by decide, by decide, rfl, by decide⟩

/-- Two forecast samples of one day whose condition groups tie at one
occurrence each: Rain first in provider order, then Clear. -/
def rainClearSamples : List Cond :=
  [{ main := "Rain", id := 500, description := "light rain" },
   { main := "Clear", id := 800, description := "clear sky" }]

/-- C4 (counterexample): on a day whose condition groups tie, the dominant
group depends on the iteration order of the Python `set`, which is
hash-dependent and need not be provider order. With the tie Rain/Clear and
the set enumerating as Clear before Rain — a legitimate enumeration of the
two-element set — the code picks Clear, while the claimed provider-order
tie-break picks Rain. -/
theorem C4_counterexample :
    firstOccurrences (rainClearSamples.map Cond.main) = ["Rain", "Clear"] ∧
    List.Perm ["Clear", "Rain"] (firstOccurrences (rainClearSamples.map Cond.main)) ∧
    (rainClearSamples.map Cond.main).count "Rain" =
      (rainClearSamples.map Cond.main).count "Clear" ∧
    claimed_dominant_group rainClearSamples = some "Rain" ∧
    main_condition_group ["Clear", "Rain"] rainClearSamples = some "Clear" := by
  refine ⟨by decide, ?_, by decide, by decide, by decide⟩
  rw [show firstOccurrences (rainClearSamples.map Cond.main) = ["Rain", "Clear"] from
    by decide]
  exact List.Perm.swap "Rain" "Clear" []

/-- C4 (amended): for every enumeration `order` of the distinct condition
groups of a nonempty day, the chosen dominant group is one of the day's
condition groups and its count over the day's samples is maximal; whenever
one group strictly dominates all others the choice is that group, independent
of sample order; and the representative condition code is the code of some
sample labelled with the chosen group (the first such sample). Only the
resolution of ties escapes provider order: it follows the set-iteration
order. -/
theorem C4_amended (conditions : List Cond) (order : List String)
    (hne : conditions ≠ [])
    (hperm : order.Perm (firstOccurrences (conditions.map Cond.main))) :
    ∃ g, main_condition_group order conditions = some g ∧
      g ∈ conditions.map Cond.main ∧
      (∀ g' ∈ conditions.map Cond.main,
        (conditions.map Cond.main).count g' ≤ (conditions.map Cond.main).count g) ∧
      (∀ g0 ∈ conditions.map Cond.main,
        (∀ g' ∈ conditions.map Cond.main, g' ≠ g0 →
          (conditions.map Cond.main).count g' < (conditions.map Cond.main).count g0) →
        g = g0) ∧
      ∃ c ∈ conditions, c.main = g ∧ representative_id g conditions = some c.id := by
  have hgne : conditions.map Cond.main ≠ [] := by
    intro h0
    exact hne (List.map_eq_nil_iff.1 h0)
  have horder_ne : order ≠ [] := by
    intro h0
    apply firstOccurrences_ne_nil hgne
    have hlen := hperm.length_eq
    rw [h0] at hlen
    exact List.length_eq_zero.1 hlen.symm
  obtain ⟨x, xs, rfl⟩ : ∃ x xs, order = x :: xs := by
    rcases order with _ | ⟨x, xs⟩
    · exact absurd rfl horder_ne
    · exact ⟨x, xs, rfl⟩
  have hspec := pymax_foldl_spec (fun g => (conditions.map Cond.main).count g) xs x
  set r := xs.foldl
    (fun best c =>
      if (conditions.map Cond.main).count c > (conditions.map Cond.main).count best then c
      else best) x with hr
  have hmem_order : r ∈ x :: xs := by
    rcases hspec.1 with h | h
    · rw [h]
      exact List.mem_cons_self x xs
    · exact List.mem_cons_of_mem x h
  have hmax_order : ∀ c ∈ x :: xs,
      (conditions.map Cond.main).count c ≤ (conditions.map Cond.main).count r := by
    intro c hc
    rcases List.mem_cons.1 hc with rfl | hc
    · exact hspec.2.1
    · exact hspec.2.2 c hc
  have hmemiff : ∀ s : String, s ∈ x :: xs ↔ s ∈ conditions.map Cond.main := by
    intro s
    rw [hperm.mem_iff]
    exact mem_firstOccurrences _ s
  have hrg : r ∈ conditions.map Cond.main := (hmemiff r).1 hmem_order
  refine ⟨r, rfl, hrg, ?_, ?_, ?_⟩
  · intro g' hg'
    exact hmax_order g' ((hmemiff g').2 hg')
  · intro g0 hg0 hstrict
    by_contra hne'
    have h1 := hmax_order g0 ((hmemiff g0).2 hg0)
    have h2 := hstrict r hrg hne'
    omega
  · obtain ⟨c, hc, hcm⟩ := List.mem_map.1 hrg
    have hcf : c ∈ conditions.filter (fun c => c.main == r) :=
      List.mem_filter.2 ⟨hc, by simp [hcm]⟩
    rcases hfil : conditions.filter (fun c => c.main == r) with _ | ⟨d, ds⟩
    · rw [hfil] at hcf
      exact absurd hcf (List.not_mem_nil c)
    · have hd : d ∈ conditions.filter (fun c => c.main == r) := by
        rw [hfil]
        exact List.mem_cons_self d ds
      refine ⟨d, (List.mem_filter.1 hd).1, ?_, ?_⟩
      · simpa using (List.mem_filter.1 hd).2
      · simp only [representative_id, hfil, List.map_cons]

/-- Three samples with a strict majority for Rain, enumerated in
first-occurrence order. -/
def rainMajoritySamples : List Cond :=
  [{ main := "Rain", id := 500, description := "light rain" },
   { main := "Rain", id := 501, description := "moderate rain" },
   { main := "Clear", id := 800, description := "clear sky" }]

/-- Witness for C4_amended: a day with samples Rain, Rain, Clear. -/
theorem C4_amended_witness :
    rainMajoritySamples ≠ [] ∧
    List.Perm ["Rain", "Clear"] (firstOccurrences (rainMajoritySamples.map Cond.main)) ∧
    ∃ g, main_condition_group ["Rain", "Clear"] rainMajoritySamples = some g ∧
      g ∈ rainMajoritySamples.map Cond.main ∧
      (∀ g' ∈ rainMajoritySamples.map Cond.main,
        (rainMajoritySamples.map Cond.main).count g' ≤
          (rainMajoritySamples.map Cond.main).count g) ∧
      (∀ g0 ∈ rainMajoritySamples.map Cond.main,
        (∀ g' ∈ rainMajoritySamples.map Cond.main, g' ≠ g0 →
          (rainMajoritySamples.map Cond.main).count g' <
            (rainMajoritySamples.map Cond.main).count g0) →
        g = g0) ∧
      ∃ c ∈ rainMajoritySamples, c.main = g ∧
        representative_id g rainMajoritySamples = some c.id := by
  have hperm : List.Perm ["Rain", "Clear"]
      (firstOccurrences (rainMajoritySamples.map Cond.main)) := by
    rw [show firstOccurrences (rainMajoritySamples.map Cond.main) = ["Rain", "Clear"] from
      by decide]
  exact ⟨by decide, hperm, C4_amended rainMajoritySamples ["Rain", "Clear"] (by decide) hperm⟩
